import Mathlib

/-!
Verification of the vms dataspace simulation (volunteer-management web
application with a simulated cross-organization data-sharing layer).

The Lean definitions below are a shallow embedding of the Python source:

* `src/vms/events.py`               — `annotate_event`
* `src/vms/views_ui.py`             — `dashboard_view` / `events_page` event
  collection, `register_event` / `unregister_event`,
  `_minimal_subset_to_reach`, `api_certificate_context`,
  `api_certificate_request`
* `src/vms/views.py`                — `api_onboard_organization`
* `src/vms/services/dataspace.py`   — `build_usage_policy`,
  `log_volunteer_join`, `log_volunteer_cancel`
* `src/vms/models.py`               — the domain entities and the static
  mapping tables on `Organization`

Conventions used throughout the embedding:

* Django model instances compare by primary key, so cross-entity
  comparisons (`from_org != to_org`, `s in volunteer_skills`,
  `exclude(organization=org)`) are embedded as comparisons of ids.
* Python falsiness on strings/lists (`payload.get(f)` checks, `or`
  defaults) is embedded as emptiness checks.
* `hashlib.sha1(...).hexdigest()` is embedded by a full executable SHA-1
  over the UTF-8 bytes of the input string (bytes and words are `Nat`
  reduced `% 2^32` where the algorithm overflows).
* `json.dumps(cert_items, sort_keys=True)` is embedded by a concrete
  serializer for the certificate-item shape; the five keys
  `event_id, event_name, hours, provider, skills` are already in sorted
  order, so the sorted-key serialization emits them in that order with
  Python's default separators and `ensure_ascii=True` escaping.
* Log entries (`LogEntry` rows created by `log_event`) carry their
  `details` as structured values mirroring the dict / string the source
  passes to `json.dumps` / `_pretty`; the JSON pretty-printing applied at
  the call sites is an injective rendering of those values and is not
  re-modelled.
-/

/-! ## Python-style string helpers -/

/-- Lowercase hex digit for a value `< 16` (Python `hexdigest` output is
lowercase). -/
def hexDigit (n : Nat) : Char :=
  if n < 10 then Char.ofNat (48 + n) else Char.ofNat (87 + n)

/-- Big-endian lowercase hex rendering of a 32-bit word. -/
def hex8 (w : Nat) : String :=
  String.mk ((List.range 8).map (fun i => hexDigit (w / 16 ^ (7 - i) % 16)))

/-- Four lowercase hex digits, used by Python `\uXXXX` escapes. -/
def hex4 (w : Nat) : String :=
  String.mk ((List.range 4).map (fun i => hexDigit (w / 16 ^ (3 - i) % 16)))

/-- UTF-8 encoding of one character as a list of byte values. -/
def utf8Char (c : Char) : List Nat :=
  let n := c.toNat
  if n < 128 then [n]
  else if n < 2048 then [192 + n / 64, 128 + n % 64]
  else if n < 65536 then [224 + n / 4096, 128 + n / 64 % 64, 128 + n % 64]
  else [240 + n / 262144, 128 + n / 4096 % 64, 128 + n / 64 % 64, 128 + n % 64]

/-- UTF-8 bytes of a string. -/
def strUtf8 (s : String) : List Nat :=
  s.toList.foldr (fun c acc => utf8Char c ++ acc) []

/-- ASCII lowercasing of a string; embeds the case-insensitive
`label__iexact` lookup (all skill labels in the system are ASCII). -/
def asciiLower (s : String) : String :=
  String.mk (s.toList.map Char.toLower)

/-! ## SHA-1 (`hashlib.sha1(...).hexdigest()`) -/

/-- A 32-bit left rotation on a word `< 2^32`. -/
def rotl32 (n w : Nat) : Nat :=
  (w * 2 ^ n) % 4294967296 + w / 2 ^ (32 - n)

/-- Split a byte list into chunks of 64, with the list length as
structural fuel so the definition reduces in the kernel. -/
def chunks64Aux : Nat → List Nat → List (List Nat)
  | 0, _ => []
  | _, [] => []
  | fuel + 1, l => l.take 64 :: chunks64Aux fuel (l.drop 64)

def chunks64 (l : List Nat) : List (List Nat) :=
  chunks64Aux l.length l

/-- SHA-1 padding: append `0x80`, zeros to 56 mod 64, then the bit length
as 8 big-endian bytes. -/
def sha1Pad (msg : List Nat) : List Nat :=
  let len := msg.length
  let zeros := (120 - (len + 1) % 64) % 64
  msg ++ [128] ++ List.replicate zeros 0 ++
    (List.range 8).map (fun i => (8 * len) / 2 ^ (8 * (7 - i)) % 256)

/-- The 16 initial 32-bit words (big-endian) of a 64-byte chunk. -/
def chunkWords (chunk : List Nat) : List Nat :=
  (List.range 16).map (fun i =>
    chunk.getD (4 * i) 0 * 16777216 + chunk.getD (4 * i + 1) 0 * 65536 +
    chunk.getD (4 * i + 2) 0 * 256 + chunk.getD (4 * i + 3) 0)

/-- Message-schedule extension of the 16 words to 80 words. -/
def extendWords (ws : List Nat) : List Nat :=
  (List.range 64).foldl
    (fun acc _ =>
      let k := acc.length
      acc ++ [rotl32 1 (acc.getD (k - 3) 0 ^^^ acc.getD (k - 8) 0 ^^^
                        acc.getD (k - 14) 0 ^^^ acc.getD (k - 16) 0)])
    ws

/-- One SHA-1 round: update the five-word state with round index `i` and
schedule word `w`. -/
def sha1Round (st : Nat × Nat × Nat × Nat × Nat) (i w : Nat) :
    Nat × Nat × Nat × Nat × Nat :=
  let (a, b, c, d, e) := st
  let f :=
    if i < 20 then (b &&& c) ||| ((4294967295 - b) &&& d)
    else if i < 40 then b ^^^ c ^^^ d
    else if i < 60 then (b &&& c) ||| (b &&& d) ||| (c &&& d)
    else b ^^^ c ^^^ d
  let k :=
    if i < 20 then 1518500249
    else if i < 40 then 1859775393
    else if i < 60 then 2400959708
    else 3395469782
  let temp := (rotl32 5 a + f + e + k + w) % 4294967296
  (temp, a, rotl32 30 b, c, d)

/-- Process one 64-byte chunk, updating the five-word digest state. -/
def sha1Chunk (h : Nat × Nat × Nat × Nat × Nat) (chunk : List Nat) :
    Nat × Nat × Nat × Nat × Nat :=
  let ws := extendWords (chunkWords chunk)
  let (a, b, c, d, e) :=
    (List.range 80).foldl (fun st i => sha1Round st i (ws.getD i 0)) h
  let (h0, h1, h2, h3, h4) := h
  ((h0 + a) % 4294967296, (h1 + b) % 4294967296, (h2 + c) % 4294967296,
   (h3 + d) % 4294967296, (h4 + e) % 4294967296)

/-- SHA-1 digest of a byte list, rendered as 40 lowercase hex characters
(the Python `hexdigest()` output). -/
def sha1HexBytes (msg : List Nat) : String :=
  let (h0, h1, h2, h3, h4) :=
    (chunks64 (sha1Pad msg)).foldl sha1Chunk
      (1732584193, 4023233417, 2562383102, 271733878, 3285377520)
  hex8 h0 ++ hex8 h1 ++ hex8 h2 ++ hex8 h3 ++ hex8 h4

/-- Embedding of `hashlib.sha1(s.encode()).hexdigest()`. -/
def sha1Hex (s : String) : String :=
  sha1HexBytes (strUtf8 s)

/-! ## Python JSON serialization (for the certificate proof hash) -/

/-- Escaping of one character as in `json.dumps` with the default
`ensure_ascii=True`: printable ASCII except `"` and `\` is kept, control
characters use the short escapes or `\u00XX`, and non-ASCII characters
are `\u`-escaped (with surrogate pairs above the BMP). -/
def pyJsonEscapeChar (c : Char) : String :=
  if c = '"' then ("\\\"")
  else if c = '\\' then ("\\\\")
  else if c = Char.ofNat 10 then ("\\n")
  else if c = Char.ofNat 13 then ("\\r")
  else if c = Char.ofNat 9 then ("\\t")
  else if c = Char.ofNat 8 then ("\\b")
  else if c = Char.ofNat 12 then ("\\f")
  else if c.toNat < 32 then ("\\u00") ++ String.mk [hexDigit (c.toNat / 16), hexDigit (c.toNat % 16)]
  else if c.toNat < 127 then String.mk [c]
  else if c.toNat < 65536 then ("\\u") ++ hex4 c.toNat
  else
    let m := c.toNat - 65536
    "\\u" ++ hex4 (55296 + m / 1024) ++ "\\u" ++ hex4 (56320 + m % 1024)

/-- A JSON string literal as `json.dumps` renders it. -/
def pyJsonStr (s : String) : String :=
  "\"" ++ String.join (s.toList.map pyJsonEscapeChar) ++ "\""

/-- A JSON array of strings with the default `', '` separator. -/
def pyJsonStrList (xs : List String) : String :=
  "[" ++ String.intercalate (", ") (xs.map pyJsonStr) ++ "]"

/-- Python `repr` of a list of plain strings, as an f-string interpolates
it (used for `f"Missing fields: {missing}"` and the schema-mapping rows;
the interpolated strings contain no quotes or escapes). -/
def pyReprStrList (xs : List String) : String :=
  "[" ++ String.intercalate (", ") (xs.map (fun s => "'" ++ s ++ "'")) ++ "]"

/-! ## Domain model (`src/vms/models.py`)

Django model rows are embedded as structures; foreign keys are embedded
as ids (`Option Nat` for nullable FKs), many-to-many relations as lists
of ids or of joined rows, in database order. -/

/-- Embedding of `vms.models.Skill`. -/
structure Skill where
  id : Nat
  label : String
  esco_uri : String
deriving DecidableEq, Repr

/-- Embedding of `vms.models.Organization` (the fields the embedded operations read). -/
structure Organization where
  id : Nat
  name : String
  member_ds : Bool
  is_dsga : Bool
  contact_email : String
  connector_endpoint : String
  certificate_thumbprint : String
deriving DecidableEq, Repr

/-- Embedding of `vms.models.VolunteerEvent` (the fields the embedded operations
read; `skills` holds the joined `Skill` rows in database order). -/
structure VolunteerEvent where
  id : Nat
  name : String
  description : String
  duration_hours : Int
  location : String
  skills : List Skill
  organizationId : Option Nat
  isShared : Bool
  isFinished : Bool
  prioritize_local : Bool
  ds_contract_id : String
deriving DecidableEq, Repr

/-- Embedding of `vms.models.Volunteer` (the fields the embedded operations read;
`eventIds` is the registration many-to-many). -/
structure Volunteer where
  id : Nat
  name : String
  organizationId : Option Nat
  skills : List Skill
  eventIds : List Nat
  is_manager : Bool
deriving DecidableEq, Repr

/-- One entry of the `items` JSON list persisted on a certificate
(built in `api_certificate_request`). -/
structure CertItem where
  event_id : Nat
  event_name : String
  hours : Int
  provider : String
  skills : List String
deriving DecidableEq, Repr

/-- Embedding of `vms.models.Certificate`. `issued_at` is an abstract timestamp. -/
structure Certificate where
  id : Nat
  volunteerId : Nat
  issuerId : Option Nat
  issued_at : Nat
  items : List CertItem
  proof_hash : String
  skillIds : List Nat
deriving DecidableEq, Repr

/-- Atomic values appearing inside the structured log payloads. -/
inductive JAtom where
  | s (v : String)
  | n (v : Int)
deriving DecidableEq, Repr

/-- Values of the dicts the source passes to `json.dumps` / `_pretty`:
an atom, a list of strings, or a nested one-level dict of atoms. -/
inductive JVal where
  | a (v : JAtom)
  | strs (vs : List String)
  | dict (fs : List (String × JAtom))
deriving DecidableEq, Repr

/-- A catalog-sample item of the onboarding payload
(`{title, hours, skills[]}`). -/
structure CatalogItem where
  title : String
  hours : Int
  skills : List String
deriving DecidableEq, Repr

/-- The onboarding request body (`§6`): absent fields are embedded as
their falsy value (`""` for strings, `[]` for the catalog sample), which
is exactly how `payload.get(f)` treats them. -/
structure OnboardPayload where
  name : String
  contact_email : String
  connector_endpoint : String
  certificate_thumbprint : String
  catalog_sample : List CatalogItem
  privacy_policy_url : String
deriving DecidableEq, Repr

/-- A skill mapped against the static `local_skill_mapping` table
(`esco = "UNKNOWN"` when unmapped). -/
structure MappedSkill where
  skill : String
  esco : String
deriving DecidableEq, Repr

/-- One row of the mapped catalog logged by onboarding step 4. -/
structure MappedCatalogItem where
  title : String
  hours : Int
  mapping : List MappedSkill
deriving DecidableEq, Repr

/-- The contract template of onboarding step 5. -/
structure ContractTemplate where
  template_id : String
  usage : String
  constraints_purpose : String
  constraints_retention : String
deriving DecidableEq, Repr

/-- Structured rendering of the `details` string handed to `log_event`:
either free text or the value serialized at the call site. -/
inductive LogDetails where
  | text (s : String)
  | kv (fs : List (String × JVal))
  | strs (ss : List String)
  | skillMap (rows : List MappedCatalogItem)
  | contractTmpl (c : ContractTemplate)
  | onboardReq (p : OnboardPayload)
deriving DecidableEq, Repr

/-- Embedding of `vms.models.LogEntry` (timestamps are the sink's concern; order in
the log list is append order). -/
structure LogEntry where
  action : String
  details : LogDetails
  level : String := "INFO"
deriving DecidableEq, Repr

/-- The external domain store: entity tables in database order, the
auto-id counters the embedded operations allocate from, and the
append-only log sink. -/
structure DB where
  orgs : List Organization
  skills : List Skill
  events : List VolunteerEvent
  volunteers : List Volunteer
  certificates : List Certificate
  nextCertId : Nat
  nextOrgId : Nat
  logs : List LogEntry
deriving DecidableEq, Repr

/-- Resolve a nullable organization foreign key. -/
def DB.findOrg (db : DB) (oid : Option Nat) : Option Organization :=
  oid.bind (fun i => db.orgs.find? (fun o => o.id = i))

/-- Embedding of `get_object_or_404(Volunteer, pk=vid)` as an `Option`. -/
def DB.findVolunteer (db : DB) (vid : Nat) : Option Volunteer :=
  db.volunteers.find? (fun v => v.id = vid)


/-! ## Privacy-reduced display name

Both `log_volunteer_join` (dataspace.py lines 243-247) and
`log_volunteer_cancel` (lines 293-297) contain the identical snippet

    parts = volunteer.name.split(" ", 1)
    if len(parts) == 2:
        display_name = f"{parts[0]} {parts[1][0]}."
    else:
        display_name = volunteer.name

`split(" ", 1)` yields two parts exactly when the name contains a space;
`parts[1][0]` raises `IndexError` when the remainder after the first
space is empty (a name whose first space is its last character), which
aborts the request mid-sequence.  The embedding returns `none` for that
error. -/

/-- The part before and after the first `' '` of a character list, or
`none` when there is no space (`len(parts) == 1`). -/
def splitFirstSpace : List Char → Option (List Char × List Char)
  | [] => none
  | c :: cs =>
    if c = ' ' then some ([], cs)
    else (splitFirstSpace cs).map (fun p => (c :: p.1, p.2))

/-- The reduced name computed by `log_volunteer_join`; `none` embeds the
`IndexError` raised by `parts[1][0]` on an empty remainder. -/
def displayNameJoin (name : String) : Option String :=
  match splitFirstSpace name.toList with
  | none => some name
  | some (_, []) => none
  | some (tok, c :: _) => some (String.mk tok ++ " " ++ String.mk [c] ++ ".")

/-- The reduced name computed by `log_volunteer_cancel` (the snippet is
duplicated verbatim in the source). -/
def displayNameCancel (name : String) : Option String :=
  match splitFirstSpace name.toList with
  | none => some name
  | some (_, []) => none
  | some (tok, c :: _) => some (String.mk tok ++ " " ++ String.mk [c] ++ ".")

/-! ## Federation narrative for join / cancel
(`vms/services/dataspace.py`, `log_volunteer_join` / `log_volunteer_cancel`) -/

/-- Embedding of `f"{event.duration_hours}h"`. -/
def hoursStr (h : Int) : String := toString h ++ "h"

/-- The six log entries of `log_volunteer_join`, in source order, given
the reduced display name. -/
def joinEntries (v : Volunteer) (e : VolunteerEvent)
    (from_org to_org : Organization) (contract_id dn : String) :
    List LogEntry :=
  [ { action := "EDC.CatalogRequest",
      details := .kv [("from", .a (.s from_org.name)), ("to", .a (.s to_org.name)),
                      ("request", .a (.s ("list available events")))] },
    { action := "EDC.CatalogResponse",
      details := .kv [("from", .a (.s to_org.name)), ("to", .a (.s from_org.name)),
                      ("event", .dict [("EventID", .n (Int.ofNat e.id)),
                                       ("Name", .s e.name),
                                       ("Location", .s e.location),
                                       ("Time", .s (hoursStr e.duration_hours))]),
                      ("contract_offer", .a (.s contract_id))] },
    { action := "EDC.ContractNegotiated",
      details := .kv [("between", .strs [from_org.name, to_org.name]),
                      ("contract_id", .a (.s contract_id)),
                      ("purpose", .a (.s ("volunteer_matching"))),
                      ("data_minimization", .a (.s ("only VolunteerID + Name shared to host"))),
                      ("retention", .a (.s ("until event_finished or max 6 months"))),
                      ("note", .a (.s ("Agreement reached via EDC connector. " ++
                                       to_org.name ++ " cannot request full profile.")))] },
    { action := "Participation.Requested",
      details := .kv [("from", .a (.s from_org.name)), ("to", .a (.s to_org.name)),
                      ("contract_used", .a (.s contract_id)),
                      ("volunteer_subset", .dict [("VolunteerID", .s (toString v.id)),
                                                  ("Name", .s dn)]),
                      ("note", .a (.s ("Full profile (contact, history) stays at PlatformA")))] },
    { action := "Participation.Recorded",
      details := .kv [("system", .a (.s from_org.name)),
                      ("record", .dict [("VolunteerID", .n (Int.ofNat v.id)),
                                        ("VolunteerName", .s dn),
                                        ("EventID", .n (Int.ofNat e.id)),
                                        ("EventName", .s e.name),
                                        ("EventLocation", .s e.location),
                                        ("EventDuration", .s (hoursStr e.duration_hours)),
                                        ("status", .s ("joined"))])] },
    { action := "Participation.Recorded",
      details := .kv [("system", .a (.s to_org.name)),
                      ("record", .dict [("EventID", .n (Int.ofNat e.id)),
                                        ("ParticipantID", .n (Int.ofNat v.id)),
                                        ("ParticipantName", .s dn),
                                        ("status", .s ("confirmed"))])] } ]

/-- Embedding of `log_volunteer_join`: the first three entries are logged before the
name split, so on a name whose reduction raises `IndexError` the
sequence aborts after three entries (the `Bool` is `false` on abort). -/
def log_volunteer_join (v : Volunteer) (e : VolunteerEvent)
    (from_org to_org : Organization) (contract_id : String) :
    List LogEntry × Bool :=
  match displayNameJoin v.name with
  | none => ((joinEntries v e from_org to_org contract_id ("")).take 3, false)
  | some dn => (joinEntries v e from_org to_org contract_id dn, true)

/-- The three log entries of `log_volunteer_cancel`, in source order. -/
def cancelEntries (v : Volunteer) (e : VolunteerEvent)
    (from_org to_org : Organization) (dn : String) : List LogEntry :=
  [ { action := "Participation.Cancelled",
      details := .kv [("from", .a (.s from_org.name)), ("to", .a (.s to_org.name)),
                      ("volunteer_subset", .dict [("VolunteerID", .s (toString v.id)),
                                                  ("Name", .s dn)]),
                      ("note", .a (.s ("Only minimal subset used; full profile remains at PlatformA")))] },
    { action := "Participation.RecordUpdated",
      details := .kv [("system", .a (.s from_org.name)),
                      ("record", .dict [("VolunteerID", .n (Int.ofNat v.id)),
                                        ("EventID", .n (Int.ofNat e.id)),
                                        ("EventName", .s e.name),
                                        ("status", .s ("cancelled"))])] },
    { action := "Participation.RecordUpdated",
      details := .kv [("system", .a (.s to_org.name)),
                      ("record", .dict [("EventID", .n (Int.ofNat e.id)),
                                        ("ParticipantID", .n (Int.ofNat v.id)),
                                        ("status", .s ("cancelled"))])] } ]

/-- Embedding of `log_volunteer_cancel`: the name split happens before the first
`log_event`, so a failing reduction logs nothing at all. -/
def log_volunteer_cancel (v : Volunteer) (e : VolunteerEvent)
    (from_org to_org : Organization) : List LogEntry × Bool :=
  match displayNameCancel v.name with
  | none => ([], false)
  | some dn => (cancelEntries v e from_org to_org dn, true)

/-! ## Registration / unregistration (`views_ui.register_event` /
`views_ui.unregister_event`, POST branch) -/

/-- The guard of both views:
`from_org and to_org and from_org.member_ds and to_org.member_ds and from_org != to_org`
(organization comparison is by primary key). -/
def fedCondition (db : DB) (v : Volunteer) (e : VolunteerEvent) : Bool :=
  match db.findOrg v.organizationId, db.findOrg e.organizationId with
  | some fo, some to_ => fo.member_ds && to_.member_ds && fo.id != to_.id
  | _, _ => false

/-- Embedding of `event.ds_contract_id or "no-contract"`. -/
def contractOrDefault (e : VolunteerEvent) : String :=
  if e.ds_contract_id = "" then ("no-contract") else e.ds_contract_id

/-- The federation log entries appended by a POST to `register_event`
(after `v.events.add(event)`, which the log claims do not concern). -/
def register_event_logs (db : DB) (v : Volunteer) (e : VolunteerEvent) :
    List LogEntry :=
  match db.findOrg v.organizationId, db.findOrg e.organizationId with
  | some fo, some to_ =>
    if fo.member_ds && to_.member_ds && fo.id != to_.id then
      (log_volunteer_join v e fo to_ (contractOrDefault e)).1
    else []
  | _, _ => []

/-- The federation log entries appended by a POST to `unregister_event`
(after `v.events.remove(event)`). -/
def unregister_event_logs (db : DB) (v : Volunteer) (e : VolunteerEvent) :
    List LogEntry :=
  match db.findOrg v.organizationId, db.findOrg e.organizationId with
  | some fo, some to_ =>
    if fo.member_ds && to_.member_ds && fo.id != to_.id then
      (log_volunteer_cancel v e fo to_).1
    else []
  | _, _ => []

/-! ## Event collection (`dashboard_view` lines 88-99 and `events_page`
lines 148-160 of `views_ui.py` contain the identical snippet)

    org_events = org.events.all() if org else VolunteerEvent.objects.none()
    if org and org.member_ds:
        ds_events = VolunteerEvent.objects.filter(
            isShared=True, organization__member_ds=True
        ).exclude(organization=org)
        all_events = org_events | ds_events
    else:
        all_events = org_events

The `organization__member_ds=True` join drops events without an
organization row; `exclude(organization=org)` compares primary keys.
The queryset union `|` is a plain append here because the two parts are
disjoint. -/

/-- Whether an event's owning organization resolves to a dataspace
member (the `organization__member_ds=True` join condition). -/
def eventOrgIsMember (db : DB) (e : VolunteerEvent) : Bool :=
  match db.findOrg e.organizationId with
  | some o => o.member_ds
  | none => false

/-- The candidate event set collected by `dashboard_view`. -/
def dashboard_candidate_events (db : DB) (v : Volunteer) :
    List VolunteerEvent :=
  match db.findOrg v.organizationId with
  | none => []
  | some org =>
    let org_events := db.events.filter (fun e => e.organizationId == some org.id)
    if org.member_ds then
      org_events ++ db.events.filter (fun e =>
        e.isShared && eventOrgIsMember db e && e.organizationId != some org.id)
    else org_events

/-- The candidate event set collected by `events_page` (the snippet is
duplicated verbatim; `events_page` additionally drops finished events
when annotating, which is modelled by `events_page_listed`). -/
def events_page_candidate_events (db : DB) (v : Volunteer) :
    List VolunteerEvent :=
  match db.findOrg v.organizationId with
  | none => []
  | some org =>
    let org_events := db.events.filter (fun e => e.organizationId == some org.id)
    if org.member_ds then
      org_events ++ db.events.filter (fun e =>
        e.isShared && eventOrgIsMember db e && e.organizationId != some org.id)
    else org_events

/-- The events `events_page` actually annotates and renders
(`... for e in all_events if not e.isFinished`). -/
def events_page_listed (db : DB) (v : Volunteer) : List VolunteerEvent :=
  (events_page_candidate_events db v).filter (fun e => !e.isFinished)

/-! ## Event annotation (`vms/events.py`, `annotate_event`) -/

/-- The attributes `annotate_event` sets on the event object. -/
structure AnnotatedEvent where
  event : VolunteerEvent
  is_registered : Bool
  skill_status : List (String × String)
  missing_skills : List String
  can_register : Bool
  is_federated : Bool
deriving DecidableEq, Repr

/-- Assignment into a Python dict: overwrite in place when the key
exists, otherwise append (insertion order preserved). -/
def dictSet (d : List (String × String)) (k v : String) :
    List (String × String) :=
  match d with
  | [] => [(k, v)]
  | (k', v') :: rest =>
    if k' = k then (k', v) :: rest else (k', v') :: dictSet rest k v

/-- Membership lookup in a Python dict modelled as an assoc list. -/
def dictGet : List (String × String) → String → Option String
  | [], _ => none
  | (k', v') :: rest, k => if k' = k then some v' else dictGet rest k

/-- Membership of a skill in the volunteer's skill set: Django model
equality is primary-key equality. -/
def hasSkill (v : Volunteer) (s : Skill) : Bool :=
  v.skills.any (fun t => t.id == s.id)

/-- The loop body of `annotate_event`: record the has/missing status of
one required skill and extend the missing list. -/
def skillStep (v : Volunteer) (acc : List (String × String) × List String)
    (s : Skill) : List (String × String) × List String :=
  if hasSkill v s then (dictSet acc.1 s.label ("has"), acc.2)
  else (dictSet acc.1 s.label ("missing"), acc.2 ++ [s.label])

/-- Embedding of `annotate_event(event, volunteer, registered_ids)`. -/
def annotate_event (e : VolunteerEvent) (v : Volunteer)
    (registered_ids : List Nat) : AnnotatedEvent :=
  let acc := e.skills.foldl (skillStep v) ([], [])
  { event := e
    is_registered := e.id ∈ registered_ids
    skill_status := acc.1
    missing_skills := acc.2
    can_register := acc.2.length == 0
    is_federated :=
      match v.organizationId with
      | none => false
      | some _ => e.organizationId != v.organizationId }

/-! ## Usage policy (`vms/services/dataspace.py`, `build_usage_policy`) -/

/-- Embedding of `_short_id(s, n=12)`. -/
def short_id (s : String) : String := (sha1Hex s).take 12

/-- One ODRL-style constraint of a usage policy. -/
structure OdrlConstraint where
  leftOperand : String
  operator : String
  rightOperand : String
deriving DecidableEq, Repr

/-- The usage-policy document (the parts `build_usage_policy`
computes: id, permission target, permission constraints, and the single
duty, which is constant). -/
structure UsagePolicy where
  policyId : String
  target : String
  constraints : List OdrlConstraint
  dutyAction : String
  dutyConstraint : OdrlConstraint
deriving DecidableEq, Repr

/-- Embedding of `build_usage_policy(org, event)`. -/
def build_usage_policy (org : Organization) (event : VolunteerEvent) :
    UsagePolicy :=
  let base : List OdrlConstraint :=
    [ { leftOperand := "purpose", operator := "eq", rightOperand := "volunteer_matching" },
      { leftOperand := "retention", operator := "lte", rightOperand := "P6M" } ]
  { policyId := "urn:policy:" ++ short_id ("policy-" ++ toString org.id ++ "-" ++ toString event.id)
    target := "urn:edc:asset:" ++ short_id ("asset-" ++ toString org.id ++ "-" ++ toString event.id)
    constraints :=
      base ++
        (if event.prioritize_local then
          [{ leftOperand := "audience", operator := "eq",
             rightOperand := "org:" ++ toString org.id }]
        else [])
    dutyAction := "deleteAfter"
    dutyConstraint :=
      { leftOperand := "state", operator := "eq", rightOperand := "event_finished" } }

/-- The audience restriction `build_usage_policy` adds under
`prioritize_local`. -/
def audienceConstraint (org : Organization) : OdrlConstraint :=
  { leftOperand := "audience", operator := "eq",
    rightOperand := "org:" ++ toString org.id }

/-! ## Certificate milestone context (`views_ui.py`,
`_minimal_subset_to_reach` and `api_certificate_context`) -/

/-- Embedding of `MILESTONE_HOURS` in `views_ui.py`. -/
def MILESTONE_HOURS : Int := 100

/-- An activity dict built by `api_certificate_context` (ids are
stringified there: `"id": str(e.id)`). -/
structure Activity where
  actId : String
  title : String
  hours : Int
  provider : String
  skills : List String
deriving DecidableEq, Repr

/-- Stable insertion of an activity into a list already sorted by
descending hours: the element goes before the first strictly smaller
entry and after earlier equal ones being folded from the right, which
reproduces the stable `sorted(events, key=..., reverse=True)`. -/
def insertDescByHours (e : Activity) : List Activity → List Activity
  | [] => [e]
  | x :: xs =>
    if e.hours ≥ x.hours then e :: x :: xs else x :: insertDescByHours e xs

/-- Embedding of `sorted(events, key=lambda e: int(e["hours"]), reverse=True)` — a
stable descending sort (stable sorts agree on their output, so insertion
sort is a faithful embedding of Python's sort). -/
def sortDescByHours (l : List Activity) : List Activity :=
  l.foldr insertDescByHours []

/-- The accumulation loop of `_minimal_subset_to_reach`: scan the sorted
list, breaking as soon as the running total has reached the target,
otherwise appending the id and adding the hours. -/
def greedyAccum (target : Int) : List Activity → Int → List String × Int
  | [], total => ([], total)
  | e :: rest, total =>
    if total ≥ target then ([], total)
    else
      let (ids, t) := greedyAccum target rest (total + e.hours)
      (e.actId :: ids, t)

/-- Embedding of `_minimal_subset_to_reach(target, events)`, returning the selected
ids (the source wraps them in a `set`, queried only by membership) and
the accumulated total. -/
def minimal_subset_to_reach (target : Int) (events : List Activity) :
    List String × Int :=
  greedyAccum target (sortDescByHours events) 0

/-- The payload `api_certificate_context` returns. -/
structure CertContext where
  total_hours : Int
  hours_home : Int
  hours_remote : Int
  eligible : Bool
  contrib_sum : Int
  activities : List (Activity × Bool)
deriving DecidableEq, Repr

/-- Whether a completed event's hours count as home hours:
`home_org and e.organization and e.organization.name == home_org`
(organization comparison by name; a falsy `home_org` — no organization
or empty name — sends everything to the remote bucket). -/
def isHomeEvent (db : DB) (home_org : Option String) (e : VolunteerEvent) :
    Bool :=
  match home_org with
  | none => false
  | some hn =>
    hn != "" &&
      (match db.findOrg e.organizationId with
       | some o => o.name == hn
       | none => false)

/-- Embedding of `e.organization.name if e.organization else "Unknown"`. -/
def providerName (db : DB) (e : VolunteerEvent) : String :=
  match db.findOrg e.organizationId with
  | some o => o.name
  | none => "Unknown"

/-- The completed activities of `api_certificate_context`: the
volunteer's registered events marked finished, in database order. -/
def contextCompleted (db : DB) (v : Volunteer) : List VolunteerEvent :=
  db.events.filter (fun e => e.id ∈ v.eventIds && e.isFinished)

/-- The activity dicts `api_certificate_context` builds. -/
def contextActivities (db : DB) (v : Volunteer) : List Activity :=
  (contextCompleted db v).map (fun e =>
    { actId := toString e.id, title := e.name, hours := e.duration_hours,
      provider := providerName db e,
      skills := e.skills.map (fun s => s.label) })

/-- The accumulated `hours_total` of `api_certificate_context`. -/
def contextTotal (db : DB) (v : Volunteer) : Int :=
  ((contextCompleted db v).map (fun e => e.duration_hours)).sum

/-- The pair `(contrib_ids, contrib_sum)`: the greedy subset when the
total reaches the milestone, else empty. -/
def contextContrib (db : DB) (v : Volunteer) : List String × Int :=
  if contextTotal db v ≥ MILESTONE_HOURS then
    minimal_subset_to_reach MILESTONE_HOURS (contextActivities db v)
  else ([], 0)

/-- Embedding of `api_certificate_context(request, vid)` for a resolved volunteer. -/
def api_certificate_context (db : DB) (v : Volunteer) : CertContext :=
  let home_org := (db.findOrg v.organizationId).map (fun o => o.name)
  let completed := contextCompleted db v
  let hours_home :=
    ((completed.filter (isHomeEvent db home_org)).map (fun e => e.duration_hours)).sum
  let hours_remote :=
    ((completed.filter (fun e => !isHomeEvent db home_org e)).map
      (fun e => e.duration_hours)).sum
  { total_hours := contextTotal db v
    hours_home := hours_home
    hours_remote := hours_remote
    eligible := contextTotal db v ≥ MILESTONE_HOURS
    contrib_sum := (contextContrib db v).2
    activities := (contextActivities db v).map
      (fun a => (a, a.actId ∈ (contextContrib db v).1)) }

/-! ## Certificate issuance (`views_ui.py`, `api_certificate_request`) -/

/-- One request item (`{id, hours, provider, skills[]}`): the endpoint
reads only `int(i["id"])`; the remaining client-supplied fields are
carried to express that they do not matter. -/
structure ReqItem where
  id : Nat
  hours : Int
  provider : String
  skills : List String
deriving DecidableEq, Repr

/-- The request body (`volunteer_id`, `items`); `volunteer_id = none` or
`0` is falsy and rejected as missing. -/
structure CertPayload where
  volunteer_id : Option Nat
  items : List ReqItem
deriving DecidableEq, Repr

/-- The HTTP-level outcome of `api_certificate_request`. -/
inductive CertResult where
  | badRequest (msg : String)
  | notFound
  | rejected (reason : String)
  | issued (certId : Nat) (total from_home from_remote first_aid_hours : Int)
      (proof contract_id : String)
deriving DecidableEq, Repr

/-- Embedding of `json.dumps` of one cert item with `sort_keys=True`: the keys
`event_id < event_name < hours < provider < skills` are already in
sorted order, so they are emitted in construction order with the default
`', '` / `': '` separators. -/
def pyDumpsCertItem (it : CertItem) : String :=
  "\x7b\"event_id\": " ++ toString it.event_id ++
  ", \"event_name\": " ++ pyJsonStr it.event_name ++
  ", \"hours\": " ++ toString it.hours ++
  ", \"provider\": " ++ pyJsonStr it.provider ++
  ", \"skills\": " ++ pyJsonStrList it.skills ++ "\x7d"

/-- Embedding of `json.dumps(cert_items, sort_keys=True)`. -/
def pyDumpsCertItems (items : List CertItem) : String :=
  "[" ++ String.intercalate (", ") (items.map pyDumpsCertItem) ++ "]"

/-- Embedding of `sorted({ci["provider"] for ci in cert_items if ci["provider"]})`:
the distinct non-empty provider names in ascending lexicographic
order. -/
def sortedProviders (items : List CertItem) : List String :=
  let distinct := items.foldl
    (fun acc it =>
      if it.provider = "" || it.provider ∈ acc then acc else acc ++ [it.provider])
    []
  distinct.foldr (fun p acc =>
    match acc with
    | [] => [p]
    | _ => acc.takeWhile (fun q => q < p) ++ p :: acc.dropWhile (fun q => q < p)) []

/-- The cert item built from a stored event row. -/
def certItemOf (db : DB) (e : VolunteerEvent) : CertItem :=
  { event_id := e.id, event_name := e.name, hours := e.duration_hours,
    provider := providerName db e, skills := e.skills.map (fun s => s.label) }

/-- The attestation log pair per provider other than the home
organization. -/
def attestationLogs (vname contract_id : String) (home_org : Option String)
    (providers : List String) : List LogEntry :=
  providers.foldl
    (fun acc p =>
      if home_org = some p then acc
      else
        acc ++
          [ { action := "EDC.AttestationRequested",
              details := .text ("Requesting hours attestation from " ++ p ++ " for " ++ vname) },
            { action := "EDC.AttestationReceived",
              details := .text (p ++ " confirms contributed hours for " ++ vname ++
                                " under contract " ++ contract_id) } ])
    []

/-- Embedding of `ev_qs = VolunteerEvent.objects.filter(id__in=event_ids)`: the
stored event rows named by the submitted ids, in database order. -/
def certEvQs (db : DB) (event_ids : List Nat) : List VolunteerEvent :=
  db.events.filter (fun e => e.id ∈ event_ids)

/-- The recomputed `total` of `api_certificate_request` (hours are
re-read from the stored rows, not from the request items). -/
def certTotal (db : DB) (event_ids : List Nat) : Int :=
  ((certEvQs db event_ids).map (fun e => e.duration_hours)).sum

/-- The `cert_items` list persisted on the certificate, rebuilt from the
stored rows. -/
def certItems (db : DB) (event_ids : List Nat) : List CertItem :=
  (certEvQs db event_ids).map (certItemOf db)

/-- The tail of `api_certificate_request` once `volunteer_id` has been
read: everything downstream depends on the request body only through
`event_ids = [int(i["id"]) for i in items]`.  `now` is the row-creation
timestamp (`issued_at`). -/
def certCore (db : DB) (now : Nat) (vid : Nat) (event_ids : List Nat) :
    CertResult × DB :=
  match db.findVolunteer vid with
  | none => (.notFound, db)
  | some v =>
    let home_org := (db.findOrg v.organizationId).map (fun o => o.name)
    let ev_qs := certEvQs db event_ids
    if ev_qs.length ≠ event_ids.length then
      (.badRequest ("Some selected activities not found"), db)
    else
      let first_aid_skill := db.skills.find? (fun s => asciiLower s.label == "first aid")
      let total := certTotal db event_ids
      let from_home :=
        ((ev_qs.filter (isHomeEvent db home_org)).map (fun e => e.duration_hours)).sum
      let from_remote :=
        ((ev_qs.filter (fun e => !isHomeEvent db home_org e)).map
          (fun e => e.duration_hours)).sum
      let first_aid_hours :=
        ((ev_qs.filter (fun e =>
            match first_aid_skill with
            | some fa => e.skills.any (fun s => s.id == fa.id)
            | none => false)).map (fun e => e.duration_hours)).sum
      let cert_items := certItems db event_ids
      if total < MILESTONE_HOURS then
        (.rejected ("Need 100h; provided " ++ toString total ++ "h"), db)
      else
        let homeName := home_org.getD ("Unknown")
        let contract_id :=
          (sha1Hex ("credential-" ++ toString vid ++ "-" ++ toString total)).take 12
        let storyLogs : List LogEntry :=
          [ { action := "EDC.CredentialRequest",
              details := .text (v.name ++ " (via " ++ homeName ++
                ") requests volunteer certificate based on " ++
                toString cert_items.length ++ " activities") },
            { action := "EDC.ContractNegotiated",
              details := .kv [("between", .strs [homeName, "CredentialIssuer"]),
                              ("contract_id", .a (.s contract_id)),
                              ("purpose", .a (.s ("credential_issuance"))),
                              ("data_minimization", .a (.s ("Only activity IDs, hours and provider attestations shared"))),
                              ("retention", .a (.s ("P36M or until revoked")))] } ] ++
          attestationLogs v.name contract_id home_org (sortedProviders cert_items)
        let issuer :=
          match db.orgs.find? (fun o => o.is_dsga) with
          | some o => some o
          | none => db.findOrg v.organizationId
        let proof := sha1Hex (pyDumpsCertItems cert_items)
        let cert : Certificate :=
          { id := db.nextCertId, volunteerId := v.id,
            issuerId := issuer.map (fun o => o.id), issued_at := now,
            items := cert_items, proof_hash := proof,
            skillIds := match first_aid_skill with
                        | some fa => [fa.id]
                        | none => [] }
        let issuerName := (issuer.map (fun o => o.name)).getD ("Unknown")
        let finalLogs : List LogEntry :=
          [ { action := "Credential.Issued",
              details := .text ("Issued Volunteer Certificate " ++ toString cert.id ++
                " to " ++ v.name ++ " by " ++ issuerName) },
            { action := "EDC.CredentialDelivered",
              details := .text ("Certificate " ++ toString cert.id ++
                " delivered to " ++ homeName ++ " (holder)") } ]
        (.issued cert.id total from_home from_remote first_aid_hours proof contract_id,
         { db with certificates := db.certificates ++ [cert],
                   nextCertId := db.nextCertId + 1,
                   logs := db.logs ++ storyLogs ++ finalLogs })

/-- Embedding of `api_certificate_request(request)` for a JSON body that parses
(a malformed body is the earlier `Invalid JSON` bad request). -/
def api_certificate_request (db : DB) (now : Nat) (p : CertPayload) :
    CertResult × DB :=
  match p.volunteer_id with
  | none => (.badRequest ("Missing volunteer_id"), db)
  | some vid =>
    if vid = 0 then (.badRequest ("Missing volunteer_id"), db)
    else certCore db now vid (p.items.map (fun i => i.id))

/-! ## Organization onboarding (`views.py`, `api_onboard_organization`;
the routed `views_edc.py` variant shares step 1, embedded separately as
`edc_missing_fields`) -/

/-- Embedding of `Organization.local_volunteer_schema` (insertion order). -/
def local_volunteer_schema : List (String × List String) :=
  [ ("name", ["schema:givenName", "schema:familyName"]),
    ("email_address", ["schema:email"]),
    ("hours_served", ["vms:totalHours"]),
    ("skills_list", ["schema:skills"]),
    ("org_membership", ["schema:memberOf"]),
    ("tshirt_size", ["(no mapping: dropped or additionalProperty)"]),
    ("birthDate", ["schema:birthDate"]) ]

/-- Embedding of `Organization.local_skill_mapping`. -/
def local_skill_mapping : List (String × String) :=
  [ ("CPR", "http://data.europa.eu/esco/skill/cpr-0001"),
    ("Emergency Response", "http://data.europa.eu/esco/skill/disaster-0033"),
    ("First Aid", "http://data.europa.eu/esco/skill/f7464f30-662b-4177-85a0-3df9693e9e58"),
    ("Team Leadership", "http://data.europa.eu/esco/skill/0022-team-leadership"),
    ("Environmental Care", "http://data.europa.eu/esco/skill/0044-environmental-care") ]

/-- Embedding of `[f for f in required if not payload.get(f)]` for the five-field
rule set of `views.py` (order preserved; empty string / empty list are
the falsy values of absent or blank fields). -/
def missingFields (p : OnboardPayload) : List String :=
  (if p.name = "" then ["name"] else []) ++
  (if p.contact_email = "" then ["contact_email"] else []) ++
  (if p.connector_endpoint = "" then ["connector_endpoint"] else []) ++
  (if p.certificate_thumbprint = "" then ["certificate_thumbprint"] else []) ++
  (if p.catalog_sample = [] then ["catalog_sample"] else [])

/-- The three-field rule set of the `views_edc.py` variant (its step 1,
lines 29-34). -/
def edc_missing_fields (p : OnboardPayload) : List String :=
  (if p.name = "" then ["name"] else []) ++
  (if p.contact_email = "" then ["contact_email"] else []) ++
  (if p.connector_endpoint = "" then ["connector_endpoint"] else [])

/-- Step 4 of onboarding: map each catalog item's skills against
`local_skill_mapping` (`"UNKNOWN"` when unmapped). -/
def mapCatalogItem (item : CatalogItem) : MappedCatalogItem :=
  { title := item.title, hours := item.hours,
    mapping := item.skills.map (fun s =>
      match (local_skill_mapping.find? (fun kv => kv.1 = s)).map (fun kv => kv.2) with
      | some esco => { skill := s, esco := esco }
      | none => { skill := s, esco := "UNKNOWN" }) }

/-- The unmapped-skill count of the whole catalog sample. -/
def unknownSkillCount (catalog : List CatalogItem) : Nat :=
  ((catalog.map mapCatalogItem).map (fun row =>
    (row.mapping.filter (fun m => m.esco = "UNKNOWN")).length)).sum

/-- The outcome of `views.py`'s `api_onboard_organization`. -/
inductive OnboardResult where
  | rejected (reason : String)
  | approved (organization_id : Nat) (volunteer_schema : List String)
      (mapped_catalog : List MappedCatalogItem) (contract : ContractTemplate)
deriving DecidableEq, Repr

/-- Embedding of `views.py`'s `api_onboard_organization` for a JSON body that parses
(method and parse failures precede the embedded logic). -/
def api_onboard_organization (db : DB) (p : OnboardPayload) :
    OnboardResult × DB :=
  let db0 : DB :=
    { db with logs := db.logs ++
        [{ action := "OnboardingRequestReceived", details := .onboardReq p }] }
  let missing := missingFields p
  if missing ≠ [] then
    let reason := "Missing fields: " ++ pyReprStrList missing
    (.rejected reason,
     { db0 with logs := db0.logs ++
         [{ action := "OnboardingRejected.MissingMetadata",
            details := .kv [("status", .a (.s ("rejected"))), ("reason", .a (.s reason))],
            level := "WARN" }] })
  else
    let db1 : DB := { db0 with logs := db0.logs ++
      [{ action := "MetadataValidation",
         details := .text ("All required fields present for " ++ p.name) }] }
    let db2 : DB := { db1 with logs := db1.logs ++
      [ if p.privacy_policy_url = "" then
          { action := "GovernanceCheck",
            details := .text ("No privacy_policy_url provided"), level := "WARN" }
        else
          { action := "GovernanceCheck",
            details := .text ("Privacy policy present: " ++ p.privacy_policy_url) } ] }
    let mapping_log := local_volunteer_schema.map
      (fun kv => kv.1 ++ " → " ++ pyReprStrList kv.2)
    let db3 : DB := { db2 with logs := db2.logs ++
      [{ action := "VolunteerSchemaMapping", details := .strs mapping_log }] }
    let mapped_catalog := p.catalog_sample.map mapCatalogItem
    let unknowns := unknownSkillCount p.catalog_sample
    let db4 : DB := { db3 with logs := db3.logs ++
      [{ action := "SkillMapping", details := .skillMap mapped_catalog }] }
    let contract : ContractTemplate :=
      { template_id := "tmpl-" ++ (sha1Hex p.name).take 8,
        usage := "volunteer-activity-sharing",
        constraints_purpose := "volunteer_record_verification",
        constraints_retention := "36 months" }
    let db5 : DB := { db4 with logs := db4.logs ++
      [{ action := "ContractTemplateGenerated", details := .contractTmpl contract }] }
    if unknowns > 2 then
      let reason := "Too many unknown skills (" ++ toString unknowns ++ ")"
      (.rejected reason,
       { db5 with logs := db5.logs ++
           [{ action := "OnboardingRejected.OntologyGap",
              details := .kv [("status", .a (.s ("rejected"))), ("reason", .a (.s reason))],
              level := "WARN" }] })
    else
      let org : Organization :=
        { id := db.nextOrgId, name := p.name, member_ds := true, is_dsga := false,
          contact_email := p.contact_email,
          connector_endpoint := p.connector_endpoint,
          certificate_thumbprint := p.certificate_thumbprint }
      (.approved org.id mapping_log mapped_catalog contract,
       { db5 with orgs := db5.orgs ++ [org], nextOrgId := db.nextOrgId + 1,
                  logs := db5.logs ++
                    [{ action := "OnboardingApproved",
                       details := .text (org.name ++ " accepted into Data Space") }] })

/-! ## Sample data used by the concrete witnesses -/

/-- Sample member organization (home org of the sample volunteers). -/
def orgMima : Organization :=
  { id := 1, name := "Mima", member_ds := true, is_dsga := false,
    contact_email := "info@mima.example",
    connector_endpoint := "https://mima.example",
    certificate_thumbprint := "AA11" }

/-- Sample member organization owning the shared cross-org events. -/
def orgBeck : Organization :=
  { id := 2, name := "Beck", member_ds := true, is_dsga := false,
    contact_email := "info@beck.example",
    connector_endpoint := "https://beck.example",
    certificate_thumbprint := "BB22" }

/-- Sample organization outside the dataspace. -/
def orgSolo : Organization :=
  { id := 3, name := "Solo", member_ds := false, is_dsga := false,
    contact_email := "", connector_endpoint := "", certificate_thumbprint := "" }

/-- Sample skill with a canonical uri. -/
def skillFirstAid : Skill :=
  { id := 1, label := "First Aid",
    esco_uri := "http://data.europa.eu/esco/skill/f7464f30-662b-4177-85a0-3df9693e9e58" }

/-- Sample unmapped skill. -/
def skillCooking : Skill := { id := 2, label := "Cooking", esco_uri := "" }

/-- A finished home-organization event worth the whole milestone. -/
def evHome : VolunteerEvent :=
  { id := 1, name := "Beach Cleanup", description := "", duration_hours := 100,
    location := "Linz", skills := [], organizationId := some 1,
    isShared := true, isFinished := true, prioritize_local := false,
    ds_contract_id := "" }

/-- A shared cross-org event with `prioritize_local` set and no
published contract. -/
def evShared : VolunteerEvent :=
  { id := 2, name := "Flood Relief", description := "", duration_hours := 8,
    location := "Wels", skills := [skillFirstAid], organizationId := some 2,
    isShared := true, isFinished := false, prioritize_local := true,
    ds_contract_id := "" }

/-- A private event of the other member organization. -/
def evPrivate : VolunteerEvent :=
  { id := 3, name := "Quiet Gala", description := "", duration_hours := 4,
    location := "Graz", skills := [], organizationId := some 2,
    isShared := false, isFinished := false, prioritize_local := false,
    ds_contract_id := "" }

/-- A shared event of the non-member organization. -/
def evSolo : VolunteerEvent :=
  { id := 4, name := "Park Walk", description := "", duration_hours := 2,
    location := "Steyr", skills := [], organizationId := some 3,
    isShared := true, isFinished := false, prioritize_local := false,
    ds_contract_id := "" }

/-- Sample volunteer of the home organization. -/
def volAlvaro : Volunteer :=
  { id := 1, name := "Alvaro Juan Gomez", organizationId := some 1,
    skills := [skillFirstAid], eventIds := [1], is_manager := false }

/-- Sample volunteer whose name's first space is its last character
(the privacy-name reduction raises `IndexError` on it). -/
def volBob : Volunteer :=
  { id := 2, name := "Bob ", organizationId := some 1, skills := [],
    eventIds := [2], is_manager := false }

/-- The sample database shared by the witnesses. -/
def sampleDB : DB :=
  { orgs := [orgMima, orgBeck, orgSolo],
    skills := [skillFirstAid, skillCooking],
    events := [evHome, evShared, evPrivate, evSolo],
    volunteers := [volAlvaro, volBob],
    certificates := [], nextCertId := 1, nextOrgId := 4, logs := [] }

/-! ## C1 — candidate event set of the dashboard / events views -/

/-- The `organization__member_ds=True` join holds exactly when the
event's organization resolves to a member row. -/
theorem eventOrgIsMember_iff (db : DB) (e : VolunteerEvent) :
    eventOrgIsMember db e = true ↔
      ∃ o2, db.findOrg e.organizationId = some o2 ∧ o2.member_ds = true := by
  unfold eventOrgIsMember
  cases h : db.findOrg e.organizationId <;> simp

/-- Membership in the collected candidate set, for a resolved home
organization: own events always; shared member-organization events of
other organizations when the home organization is a member. -/
theorem mem_dashboard_candidate_iff (db : DB) (v : Volunteer)
    (o : Organization) (hv : db.findOrg v.organizationId = some o)
    (e : VolunteerEvent) :
    e ∈ dashboard_candidate_events db v ↔
      ((e ∈ db.events ∧ e.organizationId = some o.id) ∨
       (o.member_ds = true ∧ e ∈ db.events ∧ e.isShared = true ∧
         (∃ o2, db.findOrg e.organizationId = some o2 ∧ o2.member_ds = true) ∧
         e.organizationId ≠ some o.id)) := by
  unfold dashboard_candidate_events
  by_cases hm : o.member_ds = true
  · simp only [hv, hm, if_true, List.mem_append, List.mem_filter,
      Bool.and_eq_true, beq_iff_eq, bne_iff_ne, eventOrgIsMember_iff]
    tauto
  · have hm' : o.member_ds = false := by
      cases h : o.member_ds
      · rfl
      · exact absurd h hm
    simp only [hv, hm', if_false, List.mem_filter, beq_iff_eq,
      Bool.false_eq_true, false_and, or_false]

/-- C1.  For a volunteer whose home organization `O` is a dataspace
member, the candidate event set collected by `dashboard_view` (and the
identical collection in `events_page`) holds exactly `O`'s own events
together with the events that are shared, owned by a member
organization, and not owned by `O`; for a non-member home organization
it holds exactly `O`'s own events. -/
theorem candidate_event_set_spec (db : DB) (v : Volunteer) (o : Organization)
    (hv : db.findOrg v.organizationId = some o) :
    (o.member_ds = true →
      ∀ e, e ∈ dashboard_candidate_events db v ↔
        ((e ∈ db.events ∧ e.organizationId = some o.id) ∨
         (e ∈ db.events ∧ e.isShared = true ∧
           (∃ o2, db.findOrg e.organizationId = some o2 ∧ o2.member_ds = true) ∧
           e.organizationId ≠ some o.id))) ∧
    (o.member_ds = false →
      ∀ e, e ∈ dashboard_candidate_events db v ↔
        (e ∈ db.events ∧ e.organizationId = some o.id)) ∧
    events_page_candidate_events db v = dashboard_candidate_events db v := by
  refine ⟨?_, ?_, rfl⟩
  · intro hm e
    rw [mem_dashboard_candidate_iff db v o hv e]
    simp [hm]
  · intro hm e
    rw [mem_dashboard_candidate_iff db v o hv e]
    simp [hm]

/-- Witness for C1 on the sample database: the home organization
resolves and is a member, and the shared cross-org event is in the
candidate set. -/
theorem candidate_event_set_spec_witness :
    sampleDB.findOrg volAlvaro.organizationId = some orgMima ∧
    orgMima.member_ds = true ∧
    evShared ∈ dashboard_candidate_events sampleDB volAlvaro :=
  ⟨by decide, by decide,
   ((candidate_event_set_spec sampleDB volAlvaro orgMima (by decide)).1
       (by decide) evShared).mpr
     (Or.inr ⟨by decide, by decide, ⟨orgBeck, by decide, by decide⟩, by decide⟩)⟩

/-! ## C2 — annotation: eligibility, missing skills, status map -/

/-- Setting a key makes it readable. -/
theorem dictGet_dictSet_self (d : List (String × String)) (k v : String) :
    dictGet (dictSet d k v) k = some v := by
  induction d with
  | nil => simp [dictSet, dictGet]
  | cons hd tl ih =>
    by_cases h : hd.1 = k
    · simp [dictSet, dictGet, h]
    · simpa [dictSet, dictGet, h] using ih

/-- Setting a key leaves other keys unchanged. -/
theorem dictGet_dictSet_other (d : List (String × String)) (k v k' : String)
    (h : k' ≠ k) : dictGet (dictSet d k v) k' = dictGet d k' := by
  induction d with
  | nil => simp [dictSet, dictGet, Ne.symm h]
  | cons hd tl ih =>
    by_cases hk : hd.1 = k
    · subst hk
      simp [dictSet, dictGet, Ne.symm h]
    · by_cases hk' : hd.1 = k'
      · simp [dictSet, dictGet, hk, hk', h]
      · simpa [dictSet, dictGet, hk, hk'] using ih

/-- The missing-skill accumulator of the annotation loop collects, in
order, the labels of the required skills the volunteer lacks. -/
theorem skillFold_missing (v : Volunteer) (l : List Skill)
    (st : List (String × String)) (ms : List String) :
    (l.foldl (skillStep v) (st, ms)).2 =
      ms ++ (l.filter (fun s => !hasSkill v s)).map (fun s => s.label) := by
  induction l generalizing st ms with
  | nil => simp
  | cons s t ih =>
    by_cases h : hasSkill v s
    · simp [skillStep, h, ih]
    · simp [skillStep, h, ih]

/-- Keys outside the processed labels are untouched by the loop. -/
theorem skillFold_status_preserved (v : Volunteer) (l : List Skill)
    (st : List (String × String)) (ms : List String) (k : String)
    (h : ∀ s ∈ l, s.label ≠ k) :
    dictGet (l.foldl (skillStep v) (st, ms)).1 k = dictGet st k := by
  induction l generalizing st ms with
  | nil => rfl
  | cons s t ih =>
    have hs : s.label ≠ k := h s (by simp)
    have ht : ∀ s' ∈ t, s'.label ≠ k := fun s' hs' => h s' (by simp [hs'])
    by_cases hh : hasSkill v s
    · simpa [skillStep, hh, ih _ _ ht] using
        dictGet_dictSet_other st s.label ("has") k (Ne.symm hs)
    · simpa [skillStep, hh, ih _ _ ht] using
        dictGet_dictSet_other st s.label ("missing") k (Ne.symm hs)

/-- With pairwise-distinct labels, the status map reads back the
has/missing status of every processed skill. -/
theorem skillFold_status (v : Volunteer) (l : List Skill)
    (st : List (String × String)) (ms : List String)
    (hnd : (l.map (fun s => s.label)).Nodup) :
    ∀ s ∈ l, dictGet (l.foldl (skillStep v) (st, ms)).1 s.label =
      some (if hasSkill v s then ("has") else ("missing")) := by
  induction l generalizing st ms with
  | nil => intro s hs; cases hs
  | cons s0 t ih =>
    intro s hs
    have hnd' : (t.map (fun s => s.label)).Nodup := (List.nodup_cons.mp hnd).2
    have h0 : s0.label ∉ t.map (fun s => s.label) := (List.nodup_cons.mp hnd).1
    rcases List.mem_cons.mp hs with rfl | hmem
    · have hpres : ∀ s' ∈ t, s'.label ≠ s.label := by
        intro s' hs' heq
        exact h0 (heq ▸ List.mem_map_of_mem (fun x => x.label) hs')
      by_cases hh : hasSkill v s
      · simpa [skillStep, hh,
          skillFold_status_preserved v t _ _ s.label hpres] using
          dictGet_dictSet_self st s.label ("has")
      · simpa [skillStep, hh,
          skillFold_status_preserved v t _ _ s.label hpres] using
          dictGet_dictSet_self st s.label ("missing")
    · by_cases hh : hasSkill v s0
      · simpa [skillStep, hh] using ih _ _ hnd' s hmem
      · simpa [skillStep, hh] using ih _ _ hnd' s hmem

/-- C2 (amended).  `can_register` holds exactly when the missing-skill
list is empty, and the missing-skill list is the set difference of the
required skills minus the volunteer's skills (as labels, in event
order); when the required skills carry pairwise-distinct labels the
status map assigns `"has"` exactly to the possessed required skills and
`"missing"` to the rest, and no other label is present. -/
theorem annotate_event_skill_spec (e : VolunteerEvent) (v : Volunteer)
    (rids : List Nat) :
    ((annotate_event e v rids).can_register = true ↔
      (annotate_event e v rids).missing_skills = []) ∧
    (annotate_event e v rids).missing_skills =
      (e.skills.filter (fun s => !hasSkill v s)).map (fun s => s.label) ∧
    ((e.skills.map (fun s => s.label)).Nodup →
      ∀ s ∈ e.skills,
        dictGet (annotate_event e v rids).skill_status s.label =
          some (if hasSkill v s then ("has") else ("missing"))) ∧
    (∀ k, k ∉ e.skills.map (fun s => s.label) →
      dictGet (annotate_event e v rids).skill_status k = none) := by
  have hmiss : (annotate_event e v rids).missing_skills =
      (e.skills.filter (fun s => !hasSkill v s)).map (fun s => s.label) := by
    simpa [annotate_event] using skillFold_missing v e.skills [] []
  refine ⟨?_, hmiss, ?_, ?_⟩
  · constructor
    · intro h
      have : (annotate_event e v rids).missing_skills.length = 0 := by
        simpa [annotate_event] using h
      exact List.length_eq_zero.mp this
    · intro h
      simp [annotate_event] at h ⊢
      simp [h]
  · intro hnd s hs
    simpa [annotate_event] using skillFold_status v e.skills [] [] hnd s hs
  · intro k hk
    have : ∀ s ∈ e.skills, s.label ≠ k := by
      intro s hs heq
      exact hk (heq ▸ List.mem_map_of_mem (fun x => x.label) hs)
    simpa [annotate_event, dictGet] using
      skillFold_status_preserved v e.skills [] [] k this

/-- Counterexample to C2 as stated: two distinct required `Skill` rows
sharing the label `"X"`, of which the volunteer possesses the first.
The later row overwrites the dict entry, so the label of a possessed
required skill reads `"missing"`. -/
theorem annotate_event_skill_spec_counterexample :
    (⟨11, "X", ""⟩ : Skill) ∈
      ({ id := 9, name := "Dup", description := "", duration_hours := 1,
         location := "", skills := [⟨11, "X", ""⟩, ⟨12, "X", ""⟩],
         organizationId := none, isShared := false, isFinished := false,
         prioritize_local := false, ds_contract_id := "" } :
         VolunteerEvent).skills ∧
    hasSkill { id := 7, name := "Eve", organizationId := none,
               skills := [⟨11, "X", ""⟩], eventIds := [], is_manager := false }
      ⟨11, "X", ""⟩ = true ∧
    dictGet (annotate_event
        { id := 9, name := "Dup", description := "", duration_hours := 1,
          location := "", skills := [⟨11, "X", ""⟩, ⟨12, "X", ""⟩],
          organizationId := none, isShared := false, isFinished := false,
          prioritize_local := false, ds_contract_id := "" }
        { id := 7, name := "Eve", organizationId := none,
          skills := [⟨11, "X", ""⟩], eventIds := [], is_manager := false }
        []).skill_status ("X") = some ("missing") := by
  refine ⟨by decide, by decide, by decide⟩

/-- Witness for C2 on the sample data: the missing-list equation holds,
and the status map of the cross-org event reads `"has"` for the
possessed skill. -/
theorem annotate_event_skill_spec_witness :
    (annotate_event evShared volAlvaro [1]).missing_skills =
      (evShared.skills.filter (fun s => !hasSkill volAlvaro s)).map
        (fun s => s.label) ∧
    dictGet (annotate_event evShared volAlvaro [1]).skill_status
      "First Aid" = some ("has") := by
  refine ⟨(annotate_event_skill_spec evShared volAlvaro [1]).2.1, ?_⟩
  have h := (annotate_event_skill_spec evShared volAlvaro [1]).2.2.1
    (by decide) skillFirstAid (by decide)
  have hh : hasSkill volAlvaro skillFirstAid = true := by decide
  rw [hh] at h
  simpa using h

/-! ## C10 — privacy-reduced name transform -/

/-- A list without a space has no first space. -/
theorem splitFirstSpace_of_no_space (l : List Char) (h : ' ' ∉ l) :
    splitFirstSpace l = none := by
  induction l with
  | nil => rfl
  | cons c cs ih =>
    have hc : c ≠ ' ' := fun hc => h (hc ▸ List.mem_cons_self c cs)
    have hcs : ' ' ∉ cs := fun hm => h (List.mem_cons_of_mem c hm)
    simp [splitFirstSpace, hc, ih hcs]

/-- Splitting at the first space returns the space-free prefix and the
remainder. -/
theorem splitFirstSpace_append (pre rest : List Char) (h : ' ' ∉ pre) :
    splitFirstSpace (pre ++ ' ' :: rest) = some (pre, rest) := by
  induction pre with
  | nil => simp [splitFirstSpace]
  | cons c cs ih =>
    have hc : c ≠ ' ' := fun hc => h (hc ▸ List.mem_cons_self c cs)
    have hcs : ' ' ∉ cs := fun hm => h (List.mem_cons_of_mem c hm)
    simp [splitFirstSpace, hc, ih hcs]

/-- C10.  A name whose first space is followed by at least one character
is reduced to its first token, a space, that character, and a period; a
name with no space is unchanged; join and cancel compute the same
transform. -/
theorem display_name_transform_spec (name : String) (pre post : List Char)
    (c : Char) (hpre : ' ' ∉ pre)
    (hsplit : name.toList = pre ++ ' ' :: c :: post) :
    displayNameJoin name =
      some (String.mk pre ++ " " ++ String.mk [c] ++ ".") ∧
    (∀ m : String, ' ' ∉ m.toList → displayNameJoin m = some m) ∧
    (∀ m : String, displayNameJoin m = displayNameCancel m) := by
  refine ⟨?_, ?_, fun m => rfl⟩
  · unfold displayNameJoin
    rw [hsplit, splitFirstSpace_append _ _ hpre]
  · intro m hm
    unfold displayNameJoin
    rw [splitFirstSpace_of_no_space _ hm]

/-- Witness for C10: the two examples of the specification. -/
theorem display_name_transform_spec_witness :
    displayNameJoin ("Alvaro Juan Gomez") = some ("Alvaro J.") ∧
    displayNameJoin ("Madonna") = some ("Madonna") := by
  have h := display_name_transform_spec ("Alvaro Juan Gomez")
    ['A', 'l', 'v', 'a', 'r', 'o'] "uan Gomez".toList ('J')
    (by decide) (by decide)
  exact ⟨h.1, h.2.1 ("Madonna") (by decide)⟩

/-! ## C5 — when the federation narrative fires -/

/-- The join narrative always appends entries once triggered: six on a
successful name reduction, the first three on the aborting one. -/
theorem log_volunteer_join_ne_nil (v : Volunteer) (e : VolunteerEvent)
    (fo to_ : Organization) (cid : String) :
    (log_volunteer_join v e fo to_ cid).1 ≠ [] := by
  unfold log_volunteer_join
  cases displayNameJoin v.name <;> simp [joinEntries]

/-- The cancel narrative appends entries exactly when the name
reduction succeeds (it runs before the first log call). -/
theorem log_volunteer_cancel_ne_nil_iff (v : Volunteer) (e : VolunteerEvent)
    (fo to_ : Organization) :
    (log_volunteer_cancel v e fo to_).1 ≠ [] ↔
      ∃ dn, displayNameCancel v.name = some dn := by
  unfold log_volunteer_cancel
  cases h : displayNameCancel v.name <;> simp [cancelEntries]

/-- C5 (amended).  Join narrative entries are appended exactly when both
organizations resolve, are dataspace members, and differ; cancel
narrative entries are appended exactly when additionally the volunteer's
privacy-name reduction succeeds (otherwise the `IndexError` aborts the
cancel sequence before any entry); a same-organization registration or
unregistration appends no federation entries. -/
theorem federation_logging_condition (db : DB) (v : Volunteer)
    (e : VolunteerEvent) :
    (register_event_logs db v e ≠ [] ↔ fedCondition db v e = true) ∧
    (unregister_event_logs db v e ≠ [] ↔
      (fedCondition db v e = true ∧
        ∃ dn, displayNameCancel v.name = some dn)) ∧
    (∀ o, db.findOrg v.organizationId = some o →
      db.findOrg e.organizationId = some o →
      register_event_logs db v e = [] ∧ unregister_event_logs db v e = []) := by
  refine ⟨?_, ?_, ?_⟩
  · unfold register_event_logs fedCondition
    cases hfo : db.findOrg v.organizationId with
    | none => simp
    | some fo =>
      cases hto : db.findOrg e.organizationId with
      | none => simp
      | some to_ =>
        by_cases hg : (fo.member_ds && to_.member_ds && fo.id != to_.id) = true
        · simp [hg, log_volunteer_join_ne_nil]
        · simp [hg]
  · unfold unregister_event_logs fedCondition
    cases hfo : db.findOrg v.organizationId with
    | none => simp
    | some fo =>
      cases hto : db.findOrg e.organizationId with
      | none => simp
      | some to_ =>
        by_cases hg : (fo.member_ds && to_.member_ds && fo.id != to_.id) = true
        · simp [hg, log_volunteer_cancel_ne_nil_iff]
        · simp [hg]
  · intro o hfo hto
    unfold register_event_logs unregister_event_logs
    rw [hfo, hto]
    simp

/-- Counterexample to C5 as stated: for the volunteer `"Bob "` (whose
only space ends the name) a cross-organization unregistration satisfies
the firing condition yet appends zero federation entries, because the
name reduction raises before the first log call. -/
theorem federation_logging_condition_counterexample :
    fedCondition sampleDB volBob evShared = true ∧
    unregister_event_logs sampleDB volBob evShared = [] := by
  refine ⟨by decide, by decide⟩

/-- Witness for C5: a same-organization registration and
unregistration on the sample data append no federation entries. -/
theorem federation_logging_condition_witness :
    register_event_logs sampleDB volAlvaro evHome = [] ∧
    unregister_event_logs sampleDB volAlvaro evHome = [] :=
  (federation_logging_condition sampleDB volAlvaro evHome).2.2 orgMima
    (by decide) (by decide)

/-! ## C6 — the ordered join sequence -/

/-- C6 (amended).  A cross-organization join by a volunteer whose name
reduction is defined appends exactly the six entries of `joinEntries`
(the specification's five steps, the last being the per-organization
pair) in order with nothing interleaved: catalog request, catalog
response (with the event summary and the contract id, which defaults to
`"no-contract"` when the event was never published with a contract),
contract negotiation with purpose `"volunteer_matching"`, participation
request with the reduced name, and the two participation-recorded
entries — the home organization's with full event context, the remote
organization's with the minimal participant record. -/
theorem join_sequence_spec (db : DB) (v : Volunteer) (e : VolunteerEvent)
    (fo to_ : Organization) (dn : String)
    (hfo : db.findOrg v.organizationId = some fo)
    (hto : db.findOrg e.organizationId = some to_)
    (hm1 : fo.member_ds = true) (hm2 : to_.member_ds = true)
    (hne : fo.id ≠ to_.id) (hdn : displayNameJoin v.name = some dn) :
    register_event_logs db v e =
      joinEntries v e fo to_ (contractOrDefault e) dn ∧
    (joinEntries v e fo to_ (contractOrDefault e) dn).map
        (fun l => l.action) =
      ["EDC.CatalogRequest", "EDC.CatalogResponse", "EDC.ContractNegotiated",
       "Participation.Requested", "Participation.Recorded",
       "Participation.Recorded"] ∧
    (e.ds_contract_id = "" → contractOrDefault e = "no-contract") := by
  refine ⟨?_, by simp [joinEntries], ?_⟩
  · unfold register_event_logs
    rw [hfo, hto]
    have hg : (fo.member_ds && to_.member_ds && fo.id != to_.id) = true := by
      simp [hm1, hm2, hne]
    simp only [hg, if_true]
    unfold log_volunteer_join
    rw [hdn]
  · intro h
    unfold contractOrDefault
    rw [if_pos h]

/-- Counterexample to C6 as stated: the cross-organization join of the
volunteer `"Bob "` aborts after the first three entries (the name
reduction raises before step 4), so fewer than five steps are logged. -/
theorem join_sequence_spec_counterexample :
    fedCondition sampleDB volBob evShared = true ∧
    (register_event_logs sampleDB volBob evShared).length = 3 := by
  refine ⟨by decide, by decide⟩

/-- Witness for C6 on the sample data: the unpublished shared event
joins under the sentinel contract id and the reduced name. -/
theorem join_sequence_spec_witness :
    register_event_logs sampleDB volAlvaro evShared =
      joinEntries volAlvaro evShared orgMima orgBeck ("no-contract")
        "Alvaro J." :=
  (join_sequence_spec sampleDB volAlvaro evShared orgMima orgBeck ("Alvaro J.")
    (by decide) (by decide) (by decide) (by decide) (by decide) (by decide)).1

/-! ## C7 — `prioritize_local` and the federation audience -/

/-- C7 (amended).  `prioritize_local` does not restrict the candidate
event set: a shared event of another member organization is visible to a
cross-organization volunteer regardless of the flag.  The flag instead
adds the audience constraint naming the owning organization to the
event's usage-policy document (and a policy-hint log on publication). -/
theorem prioritize_local_policy_spec (db : DB) (v : Volunteer)
    (o o2 : Organization) (e : VolunteerEvent)
    (hv : db.findOrg v.organizationId = some o) (hm : o.member_ds = true)
    (he : e ∈ db.events) (hs : e.isShared = true)
    (ho2 : db.findOrg e.organizationId = some o2) (hm2 : o2.member_ds = true)
    (hne : e.organizationId ≠ some o.id) :
    e ∈ dashboard_candidate_events db v ∧
    (∀ org : Organization,
      audienceConstraint org ∈ (build_usage_policy org e).constraints ↔
        e.prioritize_local = true) := by
  constructor
  · exact (mem_dashboard_candidate_iff db v o hv e).mpr
      (Or.inr ⟨hm, he, hs, ⟨o2, ho2, hm2⟩, hne⟩)
  · intro org
    unfold build_usage_policy audienceConstraint
    by_cases hp : e.prioritize_local = true
    · simp [hp]
    · simp [hp]

/-- Counterexample to C7 as stated: a shared `prioritize_local` event of
another member organization is in a cross-organization volunteer's
candidate set. -/
theorem prioritize_local_policy_spec_counterexample :
    evShared.prioritize_local = true ∧
    evShared.organizationId ≠ volAlvaro.organizationId ∧
    evShared ∈ dashboard_candidate_events sampleDB volAlvaro := by
  refine ⟨by decide, by decide, by decide⟩

/-- Witness for C7 (amended) on the sample data. -/
theorem prioritize_local_policy_spec_witness :
    evShared ∈ dashboard_candidate_events sampleDB volAlvaro ∧
    audienceConstraint orgBeck ∈
      (build_usage_policy orgBeck evShared).constraints := by
  have h := prioritize_local_policy_spec sampleDB volAlvaro orgMima orgBeck
    evShared (by decide) (by decide) (by decide) (by decide) (by decide)
    (by decide) (by decide)
  exact ⟨h.1, (h.2 orgBeck).mpr (by decide)⟩

/-! ## C8 — greedy minimal subset -/

/-- Characterization of the accumulation loop: it takes the shortest
prefix whose running total (started at `t0`) reaches the target, or the
whole list when the total never reaches it. -/
theorem greedyAccum_spec (target : Int) (l : List Activity) :
    ∀ t0 : Int, ∃ k, k ≤ l.length ∧
      (greedyAccum target l t0).1 = (l.take k).map (fun a => a.actId) ∧
      (greedyAccum target l t0).2 =
        t0 + ((l.take k).map (fun a => a.hours)).sum ∧
      (∀ j, j < k → t0 + ((l.take j).map (fun a => a.hours)).sum < target) ∧
      (k < l.length →
        target ≤ t0 + ((l.take k).map (fun a => a.hours)).sum) := by
  induction l with
  | nil =>
    intro t0
    refine ⟨0, Nat.le_refl 0, rfl, by simp [greedyAccum], ?_, ?_⟩
    · intro j hj; exact absurd hj (Nat.not_lt_zero j)
    · intro hlt; exact absurd hlt (Nat.lt_irrefl 0)
  | cons e rest ih =>
    intro t0
    by_cases h : t0 ≥ target
    · refine ⟨0, Nat.zero_le _, ?_, ?_, ?_, ?_⟩
      · simp [greedyAccum, h]
      · simp [greedyAccum, h]
      · intro j hj; exact absurd hj (Nat.not_lt_zero j)
      · intro _; simpa using h
    · obtain ⟨k, hk, h1, h2, h3, h4⟩ := ih (t0 + e.hours)
      cases hgr : greedyAccum target rest (t0 + e.hours) with
      | mk ids t =>
        rw [hgr] at h1 h2
        refine ⟨k + 1, Nat.succ_le_succ hk, ?_, ?_, ?_, ?_⟩
        · simp [greedyAccum, h, hgr, List.take_succ_cons, h1]
        · simp only [greedyAccum, h, if_false, hgr, List.take_succ_cons,
            List.map_cons, List.sum_cons]
          omega
        · intro j hj
          cases j with
          | zero =>
            simpa using (show t0 < target by omega)
          | succ j' =>
            have h3' := h3 j' (Nat.lt_of_succ_lt_succ hj)
            simp only [List.take_succ_cons, List.map_cons, List.sum_cons]
            omega
        · intro hlt
          have h4' := h4 (Nat.lt_of_succ_lt_succ hlt)
          simp only [List.take_succ_cons, List.map_cons, List.sum_cons]
          omega

/-- Inserting keeps the list a permutation of the element consed on. -/
theorem insertDescByHours_perm (e : Activity) (l : List Activity) :
    (insertDescByHours e l).Perm (e :: l) := by
  induction l with
  | nil => exact List.Perm.refl _
  | cons x xs ih =>
    by_cases h : e.hours ≥ x.hours
    · simp [insertDescByHours, h]
    · simp only [insertDescByHours, h, if_false]
      exact (ih.cons x).trans (List.Perm.swap e x xs)

/-- The stable insertion sort permutes its input. -/
theorem sortDescByHours_perm (l : List Activity) :
    (sortDescByHours l).Perm l := by
  induction l with
  | nil => exact List.Perm.refl _
  | cons x xs ih =>
    exact (insertDescByHours_perm x (sortDescByHours xs)).trans (ih.cons x)

/-- Insertion preserves the descending-hours ordering. -/
theorem insertDescByHours_pairwise (e : Activity) (l : List Activity)
    (h : l.Pairwise (fun a b => b.hours ≤ a.hours)) :
    (insertDescByHours e l).Pairwise (fun a b => b.hours ≤ a.hours) := by
  induction l with
  | nil => simp [insertDescByHours]
  | cons x xs ih =>
    rcases List.pairwise_cons.mp h with ⟨hx, hxs⟩
    by_cases hc : e.hours ≥ x.hours
    · simp only [insertDescByHours, hc, if_true]
      refine List.pairwise_cons.mpr ⟨?_, h⟩
      intro y hy
      rcases List.mem_cons.mp hy with rfl | hy'
      · exact hc
      · exact le_trans (hx y hy') hc
    · simp only [insertDescByHours, hc, if_false]
      refine List.pairwise_cons.mpr ⟨?_, ih hxs⟩
      intro y hy
      have hy' := (insertDescByHours_perm e xs).mem_iff.mp hy
      rcases List.mem_cons.mp hy' with rfl | hy''
      · omega
      · exact hx y hy''

/-- The sort output is descending by hours. -/
theorem sortDescByHours_pairwise (l : List Activity) :
    (sortDescByHours l).Pairwise (fun a b => b.hours ≤ a.hours) := by
  induction l with
  | nil => simp [sortDescByHours]
  | cons x xs ih => exact insertDescByHours_pairwise x (sortDescByHours xs) ih

/-- C8.  The greedy selection sorts by descending hours (a stable sort
of the input), accumulates exactly the shortest prefix whose running
total reaches the target (all of it when the total never does),
`api_certificate_context` marks exactly the selected ids as
contributing, and on hours `[40, 30, 20, 15, 10]` with target `100` the
selection is ids `1-4` with accumulated sum `105`. -/
theorem greedy_minimal_subset_spec :
    (∀ (target : Int) (evs : List Activity),
      ∃ k, k ≤ (sortDescByHours evs).length ∧
        (minimal_subset_to_reach target evs).1 =
          ((sortDescByHours evs).take k).map (fun a => a.actId) ∧
        (minimal_subset_to_reach target evs).2 =
          (((sortDescByHours evs).take k).map (fun a => a.hours)).sum ∧
        (∀ j, j < k →
          ((((sortDescByHours evs).take j).map (fun a => a.hours)).sum) <
            target) ∧
        (k < (sortDescByHours evs).length →
          target ≤
            (((sortDescByHours evs).take k).map (fun a => a.hours)).sum)) ∧
    (∀ evs : List Activity,
      (sortDescByHours evs).Perm evs ∧
      (sortDescByHours evs).Pairwise (fun a b => b.hours ≤ a.hours)) ∧
    (∀ (db : DB) (v : Volunteer) (a : Activity) (b : Bool),
      (a, b) ∈ (api_certificate_context db v).activities →
      (b = true ↔ a.actId ∈ (contextContrib db v).1)) ∧
    minimal_subset_to_reach 100
      [⟨"1", "A", 40, "P", []⟩, ⟨"2", "B", 30, "P", []⟩,
       ⟨"3", "C", 20, "P", []⟩, ⟨"4", "D", 15, "P", []⟩,
       ⟨"5", "E", 10, "P", []⟩] =
      (["1", "2", "3", "4"], 105) := by
  refine ⟨?_, ?_, ?_, by decide⟩
  · intro target evs
    obtain ⟨k, hk, h1, h2, h3, h4⟩ :=
      greedyAccum_spec target (sortDescByHours evs) 0
    exact ⟨k, hk, h1, by simpa using h2,
      fun j hj => by simpa using h3 j hj,
      fun hlt => by simpa using h4 hlt⟩
  · intro evs
    exact ⟨sortDescByHours_perm evs, sortDescByHours_pairwise evs⟩
  · intro db v a b hmem
    simp only [api_certificate_context, List.mem_map] at hmem
    obtain ⟨a', _, heq⟩ := hmem
    have ha : a' = a := congrArg Prod.fst heq
    have hb : decide (a'.actId ∈ (contextContrib db v).1) = b :=
      congrArg Prod.snd heq
    subst ha
    rw [← hb]
    simp

/-- Witness for C8: the concrete selection instance. -/
theorem greedy_minimal_subset_spec_witness :
    minimal_subset_to_reach 100
      [⟨"1", "A", 40, "P", []⟩, ⟨"2", "B", 30, "P", []⟩,
       ⟨"3", "C", 20, "P", []⟩, ⟨"4", "D", 15, "P", []⟩,
       ⟨"5", "E", 10, "P", []⟩] =
      (["1", "2", "3", "4"], 105) :=
  greedy_minimal_subset_spec.2.2.2

/-! ## C4 — organization onboarding -/

/-- C4.  With all five required fields present (non-falsy) and at most
two unmapped skills in the catalog sample, onboarding approves and
appends exactly one `Organization` row with `member_ds = true`; with any
required field missing it rejects, naming the missing fields, and
appends no row. -/
theorem onboarding_spec (db : DB) (p : OnboardPayload) :
    (missingFields p = [] → unknownSkillCount p.catalog_sample ≤ 2 →
      (api_onboard_organization db p).2.orgs = db.orgs ++
        [{ id := db.nextOrgId, name := p.name, member_ds := true,
           is_dsga := false, contact_email := p.contact_email,
           connector_endpoint := p.connector_endpoint,
           certificate_thumbprint := p.certificate_thumbprint }] ∧
      ∃ sch cat con,
        (api_onboard_organization db p).1 = .approved db.nextOrgId sch cat con) ∧
    (missingFields p ≠ [] →
      (api_onboard_organization db p).1 =
        .rejected ("Missing fields: " ++ pyReprStrList (missingFields p)) ∧
      (api_onboard_organization db p).2.orgs = db.orgs) := by
  constructor
  · intro h1 h2
    have h3 : ¬(unknownSkillCount p.catalog_sample > 2) := by omega
    constructor
    · simp [api_onboard_organization, h1, h3]
    · refine ⟨local_volunteer_schema.map
          (fun kv => kv.1 ++ " → " ++ pyReprStrList kv.2),
        p.catalog_sample.map mapCatalogItem,
        { template_id := "tmpl-" ++ (sha1Hex p.name).take 8,
          usage := "volunteer-activity-sharing",
          constraints_purpose := "volunteer_record_verification",
          constraints_retention := "36 months" }, ?_⟩
      simp [api_onboard_organization, h1, h3]
  · intro h1
    constructor
    · simp [api_onboard_organization, h1]
    · simp [api_onboard_organization, h1]

/-- A complete onboarding payload with one unmapped skill. -/
def onboardGood : OnboardPayload :=
  { name := "Helping Hands", contact_email := "hh@example.org",
    connector_endpoint := "https://hh.example",
    certificate_thumbprint := "CAFE",
    catalog_sample :=
      [{ title := "Soup Kitchen", hours := 4,
         skills := ["First Aid", "Gardening"] }],
    privacy_policy_url := "" }

/-- The same payload with a blank (falsy) thumbprint. -/
def onboardBad : OnboardPayload :=
  { onboardGood with certificate_thumbprint := "" }

/-- Witness for C4: the complete payload approves and persists the
member row; the blank-thumbprint payload rejects naming the field and
persists nothing. -/
theorem onboarding_spec_witness :
    (api_onboard_organization sampleDB onboardGood).2.orgs =
      sampleDB.orgs ++
        [{ id := sampleDB.nextOrgId, name := "Helping Hands",
           member_ds := true, is_dsga := false,
           contact_email := "hh@example.org",
           connector_endpoint := "https://hh.example",
           certificate_thumbprint := "CAFE" }] ∧
    (api_onboard_organization sampleDB onboardBad).1 =
      .rejected ("Missing fields: ['certificate_thumbprint']") ∧
    (api_onboard_organization sampleDB onboardBad).2.orgs = sampleDB.orgs :=
  ⟨((onboarding_spec sampleDB onboardGood).1 (by decide) (by decide)).1,
   ((onboarding_spec sampleDB onboardBad).2 (by decide)).1,
   ((onboarding_spec sampleDB onboardBad).2 (by decide)).2⟩

/-! ## C3 — certificate issuance: rejection, proof hash, determinism -/

/-- Below the milestone the endpoint rejects with the shortfall message
and leaves the store untouched (no certificate row, no log entry). -/
theorem certCore_rejected (db : DB) (now vid : Nat) (ids : List Nat)
    (v : Volunteer) (hv : db.findVolunteer vid = some v)
    (hlen : (certEvQs db ids).length = ids.length)
    (htot : certTotal db ids < MILESTONE_HOURS) :
    certCore db now vid ids =
      (.rejected ("Need 100h; provided " ++ toString (certTotal db ids) ++ "h"),
       db) := by
  unfold certCore
  simp only [hv, hlen, ne_eq, not_true_eq_false, if_false, htot, if_true]

/-- At or above the milestone the endpoint appends exactly one
certificate row, with the fresh id, the call-time timestamp, the
re-derived items, and the SHA-1 of their sorted-key JSON serialization
as proof hash. -/
theorem certCore_issued (db : DB) (now vid : Nat) (ids : List Nat)
    (v : Volunteer) (hv : db.findVolunteer vid = some v)
    (hlen : (certEvQs db ids).length = ids.length)
    (htot : MILESTONE_HOURS ≤ certTotal db ids) :
    ∃ r c newLogs,
      certCore db now vid ids =
        (r, { db with certificates := db.certificates ++ [c],
                      nextCertId := db.nextCertId + 1,
                      logs := newLogs }) ∧
      c.id = db.nextCertId ∧ c.issued_at = now ∧
      c.items = certItems db ids ∧
      c.proof_hash = sha1Hex (pyDumpsCertItems (certItems db ids)) ∧
      c.volunteerId = v.id := by
  have hlt : ¬(certTotal db ids < MILESTONE_HOURS) := not_lt.mpr htot
  unfold certCore
  simp only [hv, hlen, ne_eq, not_true_eq_false, if_false, hlt]
  exact ⟨_, _, _, rfl, rfl, rfl, rfl, rfl, rfl⟩

/-- C3.  For a parsed request naming an existing volunteer and stored
events: items summing below 100 hours are rejected and nothing is
persisted; items summing to at least 100 hours persist exactly one
certificate whose proof hash is the SHA-1 of the sorted-key JSON
serialization of the item list; issuing twice from the same item list
at different times yields the same proof hash on two rows with distinct
ids. -/
theorem certificate_issuance_spec (db : DB) (now1 now2 : Nat)
    (p : CertPayload) (vid : Nat) (v : Volunteer)
    (hvid : p.volunteer_id = some vid) (h0 : vid ≠ 0)
    (hv : db.findVolunteer vid = some v)
    (hlen : (certEvQs db (p.items.map (fun i => i.id))).length =
      (p.items.map (fun i => i.id)).length) :
    (certTotal db (p.items.map (fun i => i.id)) < MILESTONE_HOURS →
      (api_certificate_request db now1 p).1 =
        .rejected ("Need 100h; provided " ++
          toString (certTotal db (p.items.map (fun i => i.id))) ++ "h") ∧
      (api_certificate_request db now1 p).2 = db) ∧
    (MILESTONE_HOURS ≤ certTotal db (p.items.map (fun i => i.id)) →
      ∃ c, (api_certificate_request db now1 p).2.certificates =
          db.certificates ++ [c] ∧
        c.proof_hash =
          sha1Hex (pyDumpsCertItems
            (certItems db (p.items.map (fun i => i.id)))) ∧
        c.items = certItems db (p.items.map (fun i => i.id)) ∧
        c.id = db.nextCertId ∧ c.issued_at = now1) ∧
    (MILESTONE_HOURS ≤ certTotal db (p.items.map (fun i => i.id)) →
      ∃ c1 c2,
        (api_certificate_request
            (api_certificate_request db now1 p).2 now2 p).2.certificates =
          db.certificates ++ [c1, c2] ∧
        c1.proof_hash = c2.proof_hash ∧ c1.id ≠ c2.id) := by
  have happ : ∀ (d : DB) (n : Nat),
      api_certificate_request d n p =
        certCore d n vid (p.items.map (fun i => i.id)) := by
    intro d n
    simp [api_certificate_request, hvid, h0]
  refine ⟨?_, ?_, ?_⟩
  · intro htot
    rw [happ, certCore_rejected db now1 vid _ v hv hlen htot]
    exact ⟨rfl, rfl⟩
  · intro htot
    obtain ⟨r1, c1, L1, heq1, hid1, hiss1, hitems1, hproof1, _⟩ :=
      certCore_issued db now1 vid _ v hv hlen htot
    refine ⟨c1, ?_, hproof1, hitems1, hid1, hiss1⟩
    rw [happ, heq1]
  · intro htot
    obtain ⟨r1, c1, L1, heq1, hid1, _, _, hproof1, _⟩ :=
      certCore_issued db now1 vid _ v hv hlen htot
    have happ1 : (api_certificate_request db now1 p).2 =
        { db with certificates := db.certificates ++ [c1],
                  nextCertId := db.nextCertId + 1, logs := L1 } := by
      rw [happ, heq1]
    have hfv : DB.findVolunteer
        { db with certificates := db.certificates ++ [c1],
                  nextCertId := db.nextCertId + 1, logs := L1 } vid =
        db.findVolunteer vid := rfl
    have hEv : certEvQs
        { db with certificates := db.certificates ++ [c1],
                  nextCertId := db.nextCertId + 1, logs := L1 }
        (p.items.map (fun i => i.id)) =
        certEvQs db (p.items.map (fun i => i.id)) := rfl
    have hTo : certTotal
        { db with certificates := db.certificates ++ [c1],
                  nextCertId := db.nextCertId + 1, logs := L1 }
        (p.items.map (fun i => i.id)) =
        certTotal db (p.items.map (fun i => i.id)) := rfl
    obtain ⟨r2, c2, L2, heq2, hid2, _, _, hproof2, _⟩ :=
      certCore_issued
        { db with certificates := db.certificates ++ [c1],
                  nextCertId := db.nextCertId + 1, logs := L1 }
        now2 vid (p.items.map (fun i => i.id)) v (hfv.trans hv)
        (by rw [hEv]; exact hlen) (by rw [hTo]; exact htot)
    refine ⟨c1, c2, ?_, ?_, ?_⟩
    · rw [happ1, happ, heq2]
      simp
    · rw [hproof1, hproof2]
      rfl
    · rw [hid1, hid2]
      simp

/-- A certificate request naming the finished 100-hour event; the
client-supplied `hours`/`provider`/`skills` are deliberately off (they
are ignored by the endpoint). -/
def certPayloadA : CertPayload :=
  { volunteer_id := some 1,
    items := [{ id := 1, hours := 1, provider := "Elsewhere", skills := ["Z"] }] }

/-- Witness for C3 on the sample data: one row is appended with the
sorted-JSON SHA-1 proof, and the repeat request at another time yields
an equal proof hash on a distinct id. -/
theorem certificate_issuance_spec_witness :
    (∃ c, (api_certificate_request sampleDB 11 certPayloadA).2.certificates =
        sampleDB.certificates ++ [c] ∧
      c.proof_hash = sha1Hex (pyDumpsCertItems
        (certItems sampleDB (certPayloadA.items.map (fun i => i.id)))) ∧
      c.items = certItems sampleDB (certPayloadA.items.map (fun i => i.id)) ∧
      c.id = sampleDB.nextCertId ∧ c.issued_at = 11) ∧
    (∃ c1 c2,
      (api_certificate_request
          (api_certificate_request sampleDB 11 certPayloadA).2 12
          certPayloadA).2.certificates =
        sampleDB.certificates ++ [c1, c2] ∧
      c1.proof_hash = c2.proof_hash ∧ c1.id ≠ c2.id) :=
  ⟨(certificate_issuance_spec sampleDB 11 12 certPayloadA 1 volAlvaro
      (by decide) (by decide) (by decide) (by decide)).2.1 (by decide),
   (certificate_issuance_spec sampleDB 11 12 certPayloadA 1 volAlvaro
      (by decide) (by decide) (by decide) (by decide)).2.2 (by decide)⟩

/-! ## C9 — issuance depends only on the submitted event ids -/

/-- Time-and-item-field independence of the certificate core: with equal
filtered event rows and equal id-list lengths, the HTTP result and the
persisted rows (up to the `issued_at` timestamp) coincide. -/
theorem certCore_congr (db : DB) (now1 now2 vid : Nat) (ids1 ids2 : List Nat)
    (hE : certEvQs db ids1 = certEvQs db ids2)
    (hL : ids1.length = ids2.length) :
    (certCore db now1 vid ids1).1 = (certCore db now2 vid ids2).1 ∧
    (certCore db now1 vid ids1).2.certificates.map
        (fun c => (c.volunteerId, c.items, c.proof_hash)) =
      (certCore db now2 vid ids2).2.certificates.map
        (fun c => (c.volunteerId, c.items, c.proof_hash)) := by
  have hT : certTotal db ids1 = certTotal db ids2 := by
    unfold certTotal; rw [hE]
  have hI : certItems db ids1 = certItems db ids2 := by
    unfold certItems; rw [hE]
  unfold certCore
  cases hfv : db.findVolunteer vid with
  | none => exact ⟨rfl, rfl⟩
  | some v =>
    rw [hE, hL, hT, hI]
    by_cases h1 : (certEvQs db ids2).length ≠ ids2.length
    · simp [h1]
    · by_cases h2 : certTotal db ids2 < MILESTONE_HOURS
      · simp [h1, h2]
      · simp [h1, h2, List.map_append]

/-- C9.  Two requests by the same volunteer whose item lists carry the
same event ids (as a multiset) produce the same HTTP result — total,
home/remote breakdown, recognitions, proof hash, contract id — and the
same persisted rows up to `issued_at`, whatever the client-supplied
`hours`/`provider`/`skills` in the items and whatever the call times. -/
theorem certificate_request_determinism (db : DB) (now1 now2 : Nat)
    (p1 p2 : CertPayload) (hvid : p1.volunteer_id = p2.volunteer_id)
    (hperm : (p1.items.map (fun i => i.id)).Perm
      (p2.items.map (fun i => i.id))) :
    (api_certificate_request db now1 p1).1 =
      (api_certificate_request db now2 p2).1 ∧
    (api_certificate_request db now1 p1).2.certificates.map
        (fun c => (c.volunteerId, c.items, c.proof_hash)) =
      (api_certificate_request db now2 p2).2.certificates.map
        (fun c => (c.volunteerId, c.items, c.proof_hash)) := by
  cases hv1 : p1.volunteer_id with
  | none =>
    have hv2 : p2.volunteer_id = none := by rw [← hvid]; exact hv1
    simp [api_certificate_request, hv1, hv2]
  | some vid =>
    have hv2 : p2.volunteer_id = some vid := by rw [← hvid]; exact hv1
    by_cases h0 : vid = 0
    · simp [api_certificate_request, hv1, hv2, h0]
    · have hE : certEvQs db (p1.items.map (fun i => i.id)) =
          certEvQs db (p2.items.map (fun i => i.id)) := by
        unfold certEvQs
        apply List.filter_congr
        intro e _
        exact decide_eq_decide.mpr hperm.mem_iff
      have h := certCore_congr db now1 now2 vid _ _ hE hperm.length_eq
      simpa [api_certificate_request, hv1, hv2, h0] using h

/-- A second request naming the same event id with different
client-supplied hours and provider. -/
def certPayloadB : CertPayload :=
  { volunteer_id := some 1,
    items := [{ id := 1, hours := 55, provider := "Mars", skills := [] }] }

/-- Witness for C9: the two divergent-looking payloads produce the same
result and persisted rows on the sample data. -/
theorem certificate_request_determinism_witness :
    (api_certificate_request sampleDB 11 certPayloadA).1 =
      (api_certificate_request sampleDB 12 certPayloadB).1 ∧
    (api_certificate_request sampleDB 11 certPayloadA).2.certificates.map
        (fun c => (c.volunteerId, c.items, c.proof_hash)) =
      (api_certificate_request sampleDB 12 certPayloadB).2.certificates.map
        (fun c => (c.volunteerId, c.items, c.proof_hash)) :=
  certificate_request_determinism sampleDB 11 12 certPayloadA certPayloadB
    (by decide) (List.Perm.refl _)
